import Mathlib

/-!
Shallow embedding of the `GridLines` React component from
`src/trulens_eval/trulens_eval/react_components/record_viewer/src/GridLines.tsx`.

The component receives two numbers, `totalWidth` (pixels) and `totalTime`
(milliseconds), picks a tick interval from a fixed ascending option list,
and renders one vertical guide line plus a millisecond label per column.
Numbers are modelled as rationals; `Math.floor` is `Int.floor`.
`Array(numCols)` in JavaScript throws a `RangeError` when `numCols` is
negative, so the render step is modelled as an `Option`: `none` is the
thrown exception, `some lines` is the rendered list of elements.
-/

namespace GridLines

/-- The constant `MIN_WIDTH = 100` from the source. -/
def MIN_WIDTH : ℚ := 100

/-- The constant `SECOND = 1000` from the source. -/
def SECOND : ℚ := 1000

/-- The constant `MINUTE = 60 * SECOND` from the source. -/
def MINUTE : ℚ := 60 * SECOND

/-- The option list `TIME_OPTIONS = [100, 500, 1*SECOND, 5*SECOND, 10*SECOND,
30*SECOND, MINUTE]` from the source. -/
def TIME_OPTIONS : List ℚ :=
  [100, 500, 1 * SECOND, 5 * SECOND, 10 * SECOND, 30 * SECOND, MINUTE]

/-- `maxCols = Math.floor(totalWidth / MIN_WIDTH)`. -/
def maxCols (totalWidth : ℚ) : ℤ := ⌊totalWidth / MIN_WIDTH⌋

/-- `timeOptionCols = TIME_OPTIONS.map(o => Math.floor(totalTime / o))`. -/
def timeOptionCols (totalTime : ℚ) : List ℤ :=
  TIME_OPTIONS.map (fun timeOption => ⌊totalTime / timeOption⌋)

/-- The selected tick interval:
`timeOptionIndex = timeOptionCols.findIndex(c => c < maxCols)` followed by
`timeOption = timeOptionIndex !== -1 ? TIME_OPTIONS[timeOptionIndex] : 1`.
`List.findIdx` returns the length of the list when nothing matches, which
plays the role of the `-1` returned by JavaScript. -/
def timeOption (totalWidth totalTime : ℚ) : ℚ :=
  let idx := (timeOptionCols totalTime).findIdx (fun c => c < maxCols totalWidth)
  if h : idx < TIME_OPTIONS.length then TIME_OPTIONS.get ⟨idx, h⟩ else 1

/-- `numCols = Math.floor(totalTime / timeOption)`. -/
def numCols (totalWidth totalTime : ℚ) : ℤ :=
  ⌊totalTime / timeOption totalWidth totalTime⌋

/-- `widthPerCol = (timeOption / totalTime) * totalWidth`. -/
def widthPerCol (totalWidth totalTime : ℚ) : ℚ :=
  timeOption totalWidth totalTime / totalTime * totalWidth

/-- One rendered column: the `left` offset of the guide line, the `left`
offset of the label (`+ 4` pixels), the numeric part of the label text
(`(i + 1) * timeOption`) and its unit suffix (the literal `ms`). -/
structure GridLine where
  pos : ℚ
  labelPos : ℚ
  labelVal : ℚ
  labelSuffix : String
  deriving DecidableEq, Repr

/-- The body of the component:
`Array(numCols).fill(undefined).map((_c, i) => ...)` rendering one line and
one label per column, the `i`-th (0-indexed) at `left = (i + 1) * widthPerCol`
with label text `(i + 1) * timeOption` followed by `ms`.
`Array(n)` throws a `RangeError` for negative `n`, modelled as `none`. -/
def renderGridLines (totalWidth totalTime : ℚ) : Option (List GridLine) :=
  let t := timeOption totalWidth totalTime
  let n := numCols totalWidth totalTime
  let wpc := widthPerCol totalWidth totalTime
  if n < 0 then none
  else some ((List.range n.toNat).map fun (i : ℕ) =>
    { pos := ((i : ℚ) + 1) * wpc
      labelPos := ((i : ℚ) + 1) * wpc + 4
      labelVal := ((i : ℚ) + 1) * t
      labelSuffix := "ms" })

/-- The option list evaluates to the literal ascending list of intervals. -/
lemma TIME_OPTIONS_eq :
    TIME_OPTIONS = [100, 500, 1000, 5000, 10000, 30000, 60000] := by
  norm_num [TIME_OPTIONS, SECOND, MINUTE]

/-- Unfolding of the selection into the chain of comparisons it performs on
the literal option list. -/
lemma timeOption_eq (w t : ℚ) :
    timeOption w t =
      if ⌊t / 100⌋ < maxCols w then (100 : ℚ)
      else if ⌊t / 500⌋ < maxCols w then 500
      else if ⌊t / 1000⌋ < maxCols w then 1000
      else if ⌊t / 5000⌋ < maxCols w then 5000
      else if ⌊t / 10000⌋ < maxCols w then 10000
      else if ⌊t / 30000⌋ < maxCols w then 30000
      else if ⌊t / 60000⌋ < maxCols w then 60000
      else 1 := by
  have e := TIME_OPTIONS_eq
  by_cases h1 : ⌊t / 100⌋ < maxCols w
  · simp [timeOption, timeOptionCols, List.findIdx_cons, List.findIdx_nil, e, h1]
  by_cases h2 : ⌊t / 500⌋ < maxCols w
  · simp [timeOption, timeOptionCols, List.findIdx_cons, List.findIdx_nil, e, h1, h2]
  by_cases h3 : ⌊t / 1000⌋ < maxCols w
  · simp [timeOption, timeOptionCols, List.findIdx_cons, List.findIdx_nil, e, h1, h2, h3]
  by_cases h4 : ⌊t / 5000⌋ < maxCols w
  · simp [timeOption, timeOptionCols, List.findIdx_cons, List.findIdx_nil, e, h1, h2, h3, h4]
  by_cases h5 : ⌊t / 10000⌋ < maxCols w
  · simp [timeOption, timeOptionCols, List.findIdx_cons, List.findIdx_nil, e, h1, h2, h3, h4, h5]
  by_cases h6 : ⌊t / 30000⌋ < maxCols w
  · simp [timeOption, timeOptionCols, List.findIdx_cons, List.findIdx_nil, e, h1, h2, h3, h4, h5, h6]
  by_cases h7 : ⌊t / 60000⌋ < maxCols w
  · simp [timeOption, timeOptionCols, List.findIdx_cons, List.findIdx_nil, e, h1, h2, h3, h4, h5, h6, h7]
  simp [timeOption, timeOptionCols, List.findIdx_cons, List.findIdx_nil, e, h1, h2, h3, h4, h5, h6, h7]

/-- The floor `maxCols` is literally the floor of `totalWidth / 100`. -/
lemma maxCols_def (w : ℚ) : maxCols w = ⌊w / 100⌋ := rfl

/-- The selected interval is always strictly positive, in every branch. -/
lemma timeOption_pos (w t : ℚ) : 0 < timeOption w t := by
  rw [timeOption_eq]
  split_ifs <;> norm_num

/-- Concrete evaluation: the interval selected at width 1000, time 2000. -/
lemma timeOption_at_1000_2000 : timeOption 1000 2000 = 500 := by
  rw [timeOption_eq]
  norm_num [maxCols, MIN_WIDTH]

/-- Concrete evaluation: at width 100, time 100000 the fallback is selected. -/
lemma timeOption_at_100_100000 : timeOption 100 100000 = 1 := by
  rw [timeOption_eq]
  norm_num [maxCols, MIN_WIDTH]

/-- Concrete evaluation: at width 300, time 100000 the coarsest option fits. -/
lemma timeOption_at_300_100000 : timeOption 300 100000 = 60000 := by
  rw [timeOption_eq]
  norm_num [maxCols, MIN_WIDTH]

/-- Concrete evaluation: at width 500, time 0 the finest option is selected. -/
lemma timeOption_at_500_0 : timeOption 500 0 = 100 := by
  rw [timeOption_eq]
  norm_num [maxCols, MIN_WIDTH]

/-- Concrete evaluation: at width 500, time -1000 the finest option is
selected, because the floor of a negative quotient is below `maxCols`. -/
lemma timeOption_at_500_neg1000 : timeOption 500 (-1000) = 100 := by
  rw [timeOption_eq]
  norm_num [maxCols, MIN_WIDTH]

/-- Concrete evaluation: at width -500, time 1000 no option has a column
count below the negative `maxCols`, so the fallback is selected. -/
lemma timeOption_at_neg500_1000 : timeOption (-500) 1000 = 1 := by
  rw [timeOption_eq]
  norm_num [maxCols, MIN_WIDTH]

/-- When the selection is not the fallback, it is a member of the option
list and its own candidate column count is below `maxCols`. -/
lemma timeOption_mem_and_fits (w t : ℚ) (hnf : timeOption w t ≠ 1) :
    timeOption w t ∈ TIME_OPTIONS ∧ ⌊t / timeOption w t⌋ < maxCols w := by
  rw [TIME_OPTIONS_eq]
  rw [timeOption_eq] at hnf ⊢
  split_ifs at hnf ⊢ <;>
    first
      | exact ⟨by norm_num, by assumption⟩
      | exact absurd rfl hnf

/-- The selection is at most any option of the list whose candidate column
count is below `maxCols`. -/
lemma timeOption_le_of_fits (w t o : ℚ) (ho : o ∈ TIME_OPTIONS)
    (h : ⌊t / o⌋ < maxCols w) : timeOption w t ≤ o := by
  rw [TIME_OPTIONS_eq] at ho
  fin_cases ho <;> rw [timeOption_eq] <;> split_ifs <;>
    first | norm_num | omega

/-- C8: for totalWidth = 1000 and totalTime = 2000, the computation yields
maxCols = 10, rejects the 100 ms option because its 20 candidate columns are
not below 10, selects tickIntervalMs = 500, and produces numCols = 4 and
columnWidthPx = 250. -/
theorem scenario_w1000_t2000 :
    maxCols 1000 = 10 ∧ ⌊(2000 : ℚ) / 100⌋ = 20 ∧ ¬(20 < maxCols 1000) ∧
    timeOption 1000 2000 = 500 ∧ numCols 1000 2000 = 4 ∧
    widthPerCol 1000 2000 = 250 := by
  have hm : maxCols 1000 = 10 := by norm_num [maxCols, MIN_WIDTH]
  refine ⟨hm, by norm_num, by rw [hm]; norm_num, timeOption_at_1000_2000, ?_, ?_⟩
  · rw [numCols, timeOption_at_1000_2000]
    norm_num
  · rw [widthPerCol, timeOption_at_1000_2000]
    norm_num

/-- C5: for totalWidth = 500 and totalTime = 0 the layout computes zero
columns, the render succeeds (no crash), and the rendered list is empty, so
no rendered element carries any position at all. -/
theorem zero_time_renders_nothing :
    numCols 500 0 = 0 ∧ renderGridLines 500 0 = some [] := by
  have hn : numCols 500 0 = 0 := by
    rw [numCols, timeOption_at_500_0]
    norm_num
  refine ⟨hn, ?_⟩
  simp [renderGridLines, hn]

/-- C2: whenever no option in the list has a candidate column count strictly
below `maxCols`, the selected interval is the fallback 1. The witness
instantiates the scenario totalWidth = 100, totalTime = 100000. -/
theorem tick_fallback_one (w t : ℚ) (hw : 0 < w) (ht : 0 < t)
    (hall : ∀ o ∈ TIME_OPTIONS, ¬(⌊t / o⌋ < maxCols w)) :
    timeOption w t = 1 := by
  rw [TIME_OPTIONS_eq] at hall
  have b1 := hall 100 (by norm_num)
  have b2 := hall 500 (by norm_num)
  have b3 := hall 1000 (by norm_num)
  have b4 := hall 5000 (by norm_num)
  have b5 := hall 10000 (by norm_num)
  have b6 := hall 30000 (by norm_num)
  have b7 := hall 60000 (by norm_num)
  rw [timeOption_eq]
  simp [b1, b2, b3, b4, b5, b6, b7]

/-- C2 witness: the scenario totalWidth = 100, totalTime = 100000, where
maxCols = 1, no option qualifies, the fallback 1 is selected and
numCols = 100000. -/
theorem tick_fallback_one_witness :
    (0 : ℚ) < 100 ∧ (0 : ℚ) < 100000 ∧
    (∀ o ∈ TIME_OPTIONS, ¬(⌊(100000 : ℚ) / o⌋ < maxCols 100)) ∧
    maxCols 100 = 1 ∧ timeOption 100 100000 = 1 ∧
    numCols 100 100000 = 100000 := by
  have hall : ∀ o ∈ TIME_OPTIONS, ¬(⌊(100000 : ℚ) / o⌋ < maxCols 100) := by
    rw [TIME_OPTIONS_eq]
    intro o ho
    fin_cases ho <;> norm_num [maxCols, MIN_WIDTH]
  refine ⟨by norm_num, by norm_num, hall, by norm_num [maxCols, MIN_WIDTH],
    tick_fallback_one 100 100000 (by norm_num) (by norm_num) hall, ?_⟩
  rw [numCols, timeOption_at_100_100000]
  norm_num

/-- C6: the claim asserts that negative inputs are clamped to a no-op layout
without crashing. The code does neither: at totalWidth = 500,
totalTime = -1000 it computes numCols = -10 and `Array(-10)` throws a
RangeError (modelled as `none`), and at totalWidth = -500, totalTime = 1000
it falls back to interval 1 and renders 1000 columns instead of zero. -/
theorem negative_inputs_not_clamped :
    numCols 500 (-1000) = -10 ∧ renderGridLines 500 (-1000) = none ∧
    numCols (-500) 1000 = 1000 ∧
    (renderGridLines (-500) 1000).map List.length = some 1000 := by
  have hn1 : numCols 500 (-1000) = -10 := by
    rw [numCols, timeOption_at_500_neg1000]
    norm_num
  have hn2 : numCols (-500) 1000 = 1000 := by
    rw [numCols, timeOption_at_neg500_1000]
    norm_num
  refine ⟨hn1, ?_, hn2, ?_⟩
  · simp [renderGridLines, hn1]
  · simp only [renderGridLines, hn2]
    rw [if_neg (by norm_num)]
    simp only [Option.map_some', List.length_map, List.length_range]
    decide

/-- C1: for positive totalWidth and totalTime, the selected interval is
always a member of the option list or the fallback 1, and whenever some
option has a candidate column count below `maxCols = ⌊totalWidth / 100⌋`,
the selected interval is itself such an option and is at most every such
option, i.e. it is the first (smallest) qualifying element of the ascending
list. -/
theorem tick_selection_first_and_member (w t : ℚ) (hw : 0 < w) (ht : 0 < t) :
    (timeOption w t ∈ TIME_OPTIONS ∨ timeOption w t = 1) ∧
    ∀ o ∈ TIME_OPTIONS, ⌊t / o⌋ < ⌊w / 100⌋ →
      timeOption w t ∈ TIME_OPTIONS ∧ ⌊t / timeOption w t⌋ < ⌊w / 100⌋ ∧
        timeOption w t ≤ o := by
  rw [TIME_OPTIONS_eq, ← maxCols_def]
  constructor
  · rw [timeOption_eq]
    split_ifs <;> norm_num
  · intro o ho hpred
    fin_cases ho <;> rw [timeOption_eq] <;> split_ifs <;>
      first
        | exact absurd hpred (by assumption)
        | exact ⟨by norm_num, by assumption, by norm_num⟩

/-- C1 witness: instantiation at totalWidth = 1000, totalTime = 2000. -/
theorem tick_selection_first_and_member_witness :
    (0 : ℚ) < 1000 ∧ (0 : ℚ) < 2000 ∧
    ((timeOption 1000 2000 ∈ TIME_OPTIONS ∨ timeOption 1000 2000 = 1) ∧
      ∀ o ∈ TIME_OPTIONS, ⌊(2000 : ℚ) / o⌋ < ⌊(1000 : ℚ) / 100⌋ →
        timeOption 1000 2000 ∈ TIME_OPTIONS ∧
          ⌊(2000 : ℚ) / timeOption 1000 2000⌋ < ⌊(1000 : ℚ) / 100⌋ ∧
            timeOption 1000 2000 ≤ o) :=
  ⟨by norm_num, by norm_num,
    tick_selection_first_and_member 1000 2000 (by norm_num) (by norm_num)⟩

/-- C3: whenever the selected interval is not the fallback 1, the rendered
column count fits: ⌊totalTime / tickIntervalMs⌋ < ⌊totalWidth / 100⌋. -/
theorem tick_fit_property (w t : ℚ) (hw : 0 < w) (ht : 0 < t)
    (hnf : timeOption w t ≠ 1) :
    ⌊t / timeOption w t⌋ < ⌊w / 100⌋ := by
  rw [← maxCols_def]
  rw [timeOption_eq] at hnf ⊢
  split_ifs at hnf ⊢ <;> first | assumption | exact absurd rfl hnf

/-- C3 witness: instantiation at totalWidth = 1000, totalTime = 2000, where
the non-fallback interval 500 is selected. -/
theorem tick_fit_property_witness :
    (0 : ℚ) < 1000 ∧ (0 : ℚ) < 2000 ∧ timeOption 1000 2000 ≠ 1 ∧
    ⌊(2000 : ℚ) / timeOption 1000 2000⌋ < ⌊(1000 : ℚ) / 100⌋ := by
  have hnf : timeOption 1000 2000 ≠ 1 := by
    rw [timeOption_at_1000_2000]
    norm_num
  exact ⟨by norm_num, by norm_num, hnf,
    tick_fit_property 1000 2000 (by norm_num) (by norm_num) hnf⟩

/-- C4 counterexample: at totalTime = 100000 with widths 100 ≤ 300, the
narrow width selects the fallback 1 while the wider width selects 60000, so
increasing totalWidth increases the selected interval, refuting the claim as
stated. -/
theorem tick_monotone_counterexample :
    (0 : ℚ) < 100 ∧ (100 : ℚ) ≤ 300 ∧ (0 : ℚ) < 100000 ∧
    timeOption 100 100000 = 1 ∧ timeOption 300 100000 = 60000 ∧
    ¬(timeOption 300 100000 ≤ timeOption 100 100000) := by
  refine ⟨by norm_num, by norm_num, by norm_num, timeOption_at_100_100000,
    timeOption_at_300_100000, ?_⟩
  rw [timeOption_at_100_100000, timeOption_at_300_100000]
  norm_num

/-- C4 (amended): for fixed totalTime > 0 and widths w1 ≤ w2, whenever the
interval selected at the smaller width w1 is not the fallback 1, the
interval selected at w2 is at most the interval selected at w1: increasing
totalWidth never increases a non-fallback selection. -/
theorem tick_monotone_nonfallback (w1 w2 t : ℚ) (hw1 : 0 < w1)
    (hw : w1 ≤ w2) (ht : 0 < t) (hnf : timeOption w1 t ≠ 1) :
    timeOption w2 t ≤ timeOption w1 t := by
  have hm : maxCols w1 ≤ maxCols w2 := by
    unfold maxCols MIN_WIDTH
    exact Int.floor_le_floor (by linarith)
  obtain ⟨hmem, hfit⟩ := timeOption_mem_and_fits w1 t hnf
  exact timeOption_le_of_fits w2 t (timeOption w1 t) hmem
    (lt_of_lt_of_le hfit hm)

/-- C4 (amended) witness: totalTime = 100000, widths 300 ≤ 1000; the width
300 selects the non-fallback 60000 and the width 1000 selects 30000. -/
theorem tick_monotone_nonfallback_witness :
    (0 : ℚ) < 300 ∧ (300 : ℚ) ≤ 1000 ∧ (0 : ℚ) < 100000 ∧
    timeOption 300 100000 ≠ 1 ∧
    timeOption 1000 100000 ≤ timeOption 300 100000 := by
  have hnf : timeOption 300 100000 ≠ 1 := by
    rw [timeOption_at_300_100000]
    norm_num
  exact ⟨by norm_num, by norm_num, by norm_num, hnf,
    tick_monotone_nonfallback 300 1000 100000 (by norm_num) (by norm_num)
      (by norm_num) hnf⟩

/-- C7: for positive totalWidth and totalTime the render succeeds and
produces exactly `numCols = ⌊totalTime / timeOption⌋` lines; the element at
0-based index i (the (i + 1)-th line) sits at horizontal offset
`(i + 1) * (timeOption / totalTime) * totalWidth`, its label sits 4 pixels
further right, and the label reads the number `(i + 1) * timeOption` with
the suffix `ms`. -/
theorem render_layout (w t : ℚ) (hw : 0 < w) (ht : 0 < t) :
    ∃ ls, renderGridLines w t = some ls ∧
      ls.length = (numCols w t).toNat ∧
      ∀ i : ℕ, ∀ hi : i < ls.length,
        (ls.get ⟨i, hi⟩).pos = ((i : ℚ) + 1) * (timeOption w t / t * w) ∧
        (ls.get ⟨i, hi⟩).labelPos =
          ((i : ℚ) + 1) * (timeOption w t / t * w) + 4 ∧
        (ls.get ⟨i, hi⟩).labelVal = ((i : ℚ) + 1) * timeOption w t ∧
        (ls.get ⟨i, hi⟩).labelSuffix = "ms" := by
  have hn : ¬(numCols w t < 0) := by
    rw [not_lt, numCols]
    exact Int.floor_nonneg.mpr (div_nonneg ht.le (timeOption_pos w t).le)
  refine ⟨(List.range (numCols w t).toNat).map fun (i : ℕ) =>
      { pos := ((i : ℚ) + 1) * widthPerCol w t
        labelPos := ((i : ℚ) + 1) * widthPerCol w t + 4
        labelVal := ((i : ℚ) + 1) * timeOption w t
        labelSuffix := "ms" }, ?_, ?_, ?_⟩
  · simp only [renderGridLines]
    rw [if_neg hn]
  · simp [List.length_map, List.length_range]
  · intro i hi
    have hi2 : i < (numCols w t).toNat := by
      simpa [List.length_map, List.length_range] using hi
    simp [List.getElem_map, List.getElem_range, widthPerCol]

/-- C7 witness: instantiation at totalWidth = 1000, totalTime = 2000. -/
theorem render_layout_witness :
    (0 : ℚ) < 1000 ∧ (0 : ℚ) < 2000 ∧
    ∃ ls, renderGridLines 1000 2000 = some ls ∧
      ls.length = (numCols 1000 2000).toNat ∧
      ∀ i : ℕ, ∀ hi : i < ls.length,
        (ls.get ⟨i, hi⟩).pos =
          ((i : ℚ) + 1) * (timeOption 1000 2000 / 2000 * 1000) ∧
        (ls.get ⟨i, hi⟩).labelPos =
          ((i : ℚ) + 1) * (timeOption 1000 2000 / 2000 * 1000) + 4 ∧
        (ls.get ⟨i, hi⟩).labelVal = ((i : ℚ) + 1) * timeOption 1000 2000 ∧
        (ls.get ⟨i, hi⟩).labelSuffix = "ms" :=
  ⟨by norm_num, by norm_num, render_layout 1000 2000 (by norm_num) (by norm_num)⟩

/-- C9: for positive totalWidth and totalTime, every rendered gridline lies
within the available width: each rendered position is at most totalWidth. -/
theorem lines_within_width (w t : ℚ) (hw : 0 < w) (ht : 0 < t)
    (ls : List GridLine) (hr : renderGridLines w t = some ls) :
    ∀ l ∈ ls, l.pos ≤ w := by
  have hn : ¬(numCols w t < 0) := by
    rw [not_lt, numCols]
    exact Int.floor_nonneg.mpr (div_nonneg ht.le (timeOption_pos w t).le)
  simp only [renderGridLines] at hr
  rw [if_neg hn] at hr
  have hls := (Option.some_injective _ hr).symm
  subst hls
  intro l hl
  obtain ⟨i, hi, rfl⟩ := List.mem_map.mp hl
  have hi2 : (i : ℤ) + 1 ≤ numCols w t := by
    have := List.mem_range.mp hi
    omega
  have ho := timeOption_pos w t
  have hwpc : 0 ≤ widthPerCol w t := by
    rw [widthPerCol]
    exact mul_nonneg (div_nonneg ho.le ht.le) hw.le
  have h1 : ((i : ℚ) + 1) ≤ ((numCols w t : ℤ) : ℚ) := by
    exact_mod_cast hi2
  have h2 : ((numCols w t : ℤ) : ℚ) ≤ t / timeOption w t := by
    rw [numCols]
    exact Int.floor_le _
  have ho' : timeOption w t ≠ 0 := ne_of_gt ho
  have ht' : t ≠ 0 := ne_of_gt ht
  calc ((i : ℚ) + 1) * widthPerCol w t
      ≤ (t / timeOption w t) * widthPerCol w t :=
        mul_le_mul_of_nonneg_right (h1.trans h2) hwpc
    _ = w := by
        rw [widthPerCol]
        field_simp
        ring

/-- Concrete evaluation of the full render at totalWidth = 1000,
totalTime = 2000: four lines at offsets 250, 500, 750, 1000 with labels
500, 1000, 1500, 2000 placed 4 pixels to the right of each line. -/
lemma renderGridLines_at_1000_2000 :
    renderGridLines 1000 2000 =
      some [⟨250, 254, 500, "ms"⟩, ⟨500, 504, 1000, "ms"⟩,
        ⟨750, 754, 1500, "ms"⟩, ⟨1000, 1004, 2000, "ms"⟩] := by
  have hn : numCols 1000 2000 = 4 := by
    rw [numCols, timeOption_at_1000_2000]
    norm_num
  have hwp : widthPerCol 1000 2000 = 250 := by
    rw [widthPerCol, timeOption_at_1000_2000]
    norm_num
  simp only [renderGridLines, hn, hwp, timeOption_at_1000_2000]
  rw [if_neg (by norm_num)]
  have h4 : (4 : ℤ).toNat = 4 := rfl
  rw [h4]
  simp [List.range_succ]
  norm_num

/-- C9 witness: at totalWidth = 1000, totalTime = 2000, every rendered
position of the concrete four-line render is at most 1000. -/
theorem lines_within_width_witness :
    (0 : ℚ) < 1000 ∧ (0 : ℚ) < 2000 ∧
    renderGridLines 1000 2000 =
      some [⟨250, 254, 500, "ms"⟩, ⟨500, 504, 1000, "ms"⟩,
        ⟨750, 754, 1500, "ms"⟩, ⟨1000, 1004, 2000, "ms"⟩] ∧
    ∀ l ∈ [(⟨250, 254, 500, "ms"⟩ : GridLine), ⟨500, 504, 1000, "ms"⟩,
        ⟨750, 754, 1500, "ms"⟩, ⟨1000, 1004, 2000, "ms"⟩], l.pos ≤ (1000 : ℚ) :=
  ⟨by norm_num, by norm_num, renderGridLines_at_1000_2000,
    lines_within_width 1000 2000 (by norm_num) (by norm_num) _
      renderGridLines_at_1000_2000⟩

/-- C10: whenever a non-fallback interval from the option list is selected,
the column width strictly exceeds the minimum readable spacing
MIN_WIDTH = 100, so adjacent gridlines are more than 100 px apart. -/
theorem nonfallback_exceeds_min_width (w t : ℚ) (hw : 0 < w) (ht : 0 < t)
    (hmem : timeOption w t ∈ TIME_OPTIONS) :
    MIN_WIDTH < widthPerCol w t := by
  have hnf : timeOption w t ≠ 1 := by
    intro h
    rw [h, TIME_OPTIONS_eq] at hmem
    norm_num at hmem
  obtain ⟨-, hfit⟩ := timeOption_mem_and_fits w t hnf
  have ho := timeOption_pos w t
  rw [maxCols_def] at hfit
  have h1 : (⌊t / timeOption w t⌋ : ℚ) + 1 ≤ ((⌊w / 100⌋ : ℤ) : ℚ) := by
    exact_mod_cast hfit
  have h2 : t / timeOption w t < (⌊t / timeOption w t⌋ : ℚ) + 1 :=
    Int.lt_floor_add_one _
  have h3 : ((⌊w / 100⌋ : ℤ) : ℚ) ≤ w / 100 := Int.floor_le _
  have h4 : t / timeOption w t < w / 100 := lt_of_lt_of_le h2 (h1.trans h3)
  unfold MIN_WIDTH widthPerCol
  rw [div_lt_div_iff₀ ho (by norm_num : (0 : ℚ) < 100)] at h4
  rw [div_mul_eq_mul_div, lt_div_iff₀ ht]
  linarith

/-- C10 witness: at totalWidth = 1000, totalTime = 2000 the selected
interval 500 is a member of the option list and the column width 250
exceeds MIN_WIDTH = 100. -/
theorem nonfallback_exceeds_min_width_witness :
    (0 : ℚ) < 1000 ∧ (0 : ℚ) < 2000 ∧
    timeOption 1000 2000 ∈ TIME_OPTIONS ∧
    MIN_WIDTH < widthPerCol 1000 2000 := by
  have hmem : timeOption 1000 2000 ∈ TIME_OPTIONS := by
    rw [timeOption_at_1000_2000, TIME_OPTIONS_eq]
    norm_num
  exact ⟨by norm_num, by norm_num, hmem,
    nonfallback_exceeds_min_width 1000 2000 (by norm_num) (by norm_num) hmem⟩

end GridLines
